import Mathlib

/-!
# Verification of the Black Label Luxury Rentals backend

Shallow embedding of `src/main.py` and `src/schemas.py` (a FastAPI + pydantic
CRUD backend) together with a model of the persistence gateway (`database.py`,
whose code is not part of this repository snapshot and is therefore modelled
from the spec's description of the Persistence Gateway).

Conventions:
* Python `str` is `String`, `Optional[T]` is `Option T`, `float` fields that
  are only range-checked are `Rat`, `int` is `Int`, `bool` is `Bool`.
* Python truthiness of an optional string (`if s:`/`s or d`) is explicit:
  `none` and `some ""` are falsy.
* A Mongo-style filter value is either an exact match or the case-insensitive
  anchored pattern `^m$` built by `list_vehicles`.
-/

namespace BlackLabel

/-- Python truthiness of an optional string: `None` and `""` are falsy. -/
def pyTruthy : Option String → Bool
  | none => false
  | some s => s ≠ ""

/-- Python `x or d` for an optional string `x`: the default wins when `x` is
falsy (`None` or the empty string). -/
def pyOr (x : Option String) (d : String) : String :=
  match x with
  | none => d
  | some s => if s = "" then d else s

/-- Python slicing `str(e)[:80]`: the first 80 characters of a string. -/
def truncate80 (s : String) : String := ⟨s.data.take 80⟩

/-- Lower-casing a string character by character (ASCII case folding), the
comparison key used for the case-insensitive `make` filter. -/
def lowerData (s : String) : List Char := s.data.map Char.toLower

/-- An HTTP error raised by a handler (`HTTPException(status_code, detail)`). -/
structure HErr where
  status : Nat
  detail : String
deriving Repr, DecidableEq

/-- Modelled from the spec: the Persistence Gateway's backing store for one
collection.  `docs` holds the records in store iteration order, each paired
with its generated identifier (an opaque string assigned at insert time, per
spec section 4.2); `nextId` drives identifier generation. -/
structure Coll (α : Type) where
  docs : List (String × α)
  nextId : Nat
deriving Repr

/-- Modelled from the spec: the opaque string identifier the store assigns to
the `n`-th inserted record.  Identifiers are non-empty and pairwise distinct
(here realised by length: the `n`-th identifier has `n + 1` characters). -/
def genId (n : Nat) : String := ⟨List.replicate (n + 1) 'i'⟩

/-- Modelled from the spec: `insert(collectionName, record) -> generatedId`
of the Persistence Gateway (`create_document` in `database.py`, absent from
the snapshot): serializes the record, writes it, and returns the generated
identifier. -/
def create_document {α : Type} (c : Coll α) (rec : α) : Coll α × String :=
  (⟨c.docs ++ [(genId c.nextId, rec)], c.nextId + 1⟩, genId c.nextId)

/-- Modelled from the spec: `find(collectionName, filter, limit?)` of the
Persistence Gateway (`get_documents` in `database.py`, absent from the
snapshot): returns the records matching the filter, in store iteration
order, truncated to `limit` when given. -/
def get_documents {α : Type} (c : Coll α) (pred : α → Bool)
    (limit : Option Nat) : List (String × α) :=
  let res := c.docs.filter fun p => pred p.2
  match limit with
  | none => res
  | some n => res.take n

/-- A filter condition on one field, as built by the HTTP layer:
either an exact match, or the Mongo regex `{"$regex": pattern,
"$options": "i"}` where `pattern` is always the anchored `^m$`. -/
inductive Cond where
  | eqStr (s : String)
  | regexCI (pattern : String)
deriving Repr, DecidableEq

/-- Modelled from the spec: how the gateway matches one condition against a
field value.  An anchored case-insensitive pattern `^m$` is "matched
case-insensitively as a full-string pattern" (spec section 4.2), i.e. the
field equals the pattern's core up to ASCII case. -/
def condMatch : Cond → String → Bool
  | .eqStr t, s => s = t
  | .regexCI p, s => lowerData s = ((p.data.drop 1).dropLast.map Char.toLower)

/-- `schemas.Vehicle` (validated record).  `Literal` enum fields and
`HttpUrl` fields are carried as strings; numeric `float` fields as `Rat`. -/
structure Vehicle where
  slug : String
  year : Int
  make : String
  model : String
  trim : Option String := none
  type : String
  drive_mode : String := "both"
  price_per_day : Rat
  price_per_week : Option Rat := none
  mileage_limit_per_day : Int
  overage_fee_per_mile : Rat
  security_deposit : Int
  transmission : Option String := none
  drivetrain : Option String := none
  seats : Option Int := none
  color : Option String := none
  horsepower : Option Int := none
  torque : Option Int := none
  zero_to_60 : Option Rat := none
  features : List String := []
  images : List String := []
  video_url : Option String := none
  tags : List String := []
  available : Bool := true
  availability_notes : Option String := none
deriving Repr, DecidableEq

/-- Reading a Vehicle field by its document key, for filter matching. -/
def vehicleField (v : Vehicle) : String → Option String
  | "slug" => some v.slug
  | "make" => some v.make
  | "type" => some v.type
  | "drive_mode" => some v.drive_mode
  | _ => none

/-- A vehicle matches a filter mapping iff it matches every entry. -/
def vehicleMatches (flt : List (String × Cond)) (v : Vehicle) : Bool :=
  flt.all fun kc =>
    match vehicleField v kc.1 with
    | some s => condMatch kc.2 s
    | none => false

/-- `str(it["_id"])` on an identifier that is already in string form. -/
def pyStr (s : String) : String := s

/-- The `_id`-stringification step of the handlers: `if it.get("_id"):
it["_id"] = str(it["_id"])`. -/
def stringifyId {α : Type} (p : String × α) : String × α :=
  if p.1 = "" then p else (pyStr p.1, p.2)

/-- The filter mapping built by `list_vehicles` from its query parameters:
a falsy (absent or empty) parameter contributes no entry; `make` becomes the
anchored case-insensitive pattern `^make$`, `type` and `drive_mode` exact
matches. -/
def buildVehicleFilters (make type_ drive_mode : Option String) :
    List (String × Cond) :=
  (if pyTruthy make then [("make", Cond.regexCI ("^" ++ make.getD "" ++ "$"))] else []) ++
  (if pyTruthy type_ then [("type", Cond.eqStr (type_.getD ""))] else []) ++
  (if pyTruthy drive_mode then [("drive_mode", Cond.eqStr (drive_mode.getD ""))] else [])

/-- `GET /api/vehicles` (`list_vehicles` in `main.py`): builds the filter
mapping, queries the `vehicle` collection with no limit, and stringifies
generated identifiers. -/
def list_vehicles (c : Coll Vehicle) (make type_ drive_mode : Option String) :
    List (String × Vehicle) :=
  (get_documents c (vehicleMatches (buildVehicleFilters make type_ drive_mode)) none).map
    stringifyId

/-- `GET /api/vehicles/{slug}` (`get_vehicle` in `main.py`): queries the
`vehicle` collection with the exact-match filter `{slug: slug}` and
`limit=1`; 404 when the query returns nothing, otherwise the first result
with its identifier stringified. -/
def get_vehicle (c : Coll Vehicle) (slug : String) :
    Except HErr (String × Vehicle) :=
  match get_documents c (vehicleMatches [("slug", Cond.eqStr slug)]) (some 1) with
  | [] => .error ⟨404, "Vehicle not found"⟩
  | x :: _ => .ok (stringifyId x)

/-- `schemas.Booking` (validated record).  `Literal` enum fields and
`HttpUrl` fields are carried as strings. -/
structure Booking where
  vehicle_id : String
  first_name : String
  last_name : String
  email : String
  phone : String
  preferred_contact : String := "whatsapp"
  start_date : String
  end_date : String
  delivery_location : Option String := none
  occasion : Option String := none
  driver_age_confirmed : Bool := false
  license_upload_url : Option String := none
  insurance_upload_url : Option String := none
  selfie_upload_url : Option String := none
  drive_mode : Option String := none
  addons : List String := []
  notes : Option String := none
  status : String := "new"
deriving Repr, DecidableEq

/-- A raw Booking submission before validation: fields that have a default
in `schemas.Booking` are optional here (absent means the caller omitted
them). -/
structure RawBooking where
  vehicle_id : String
  first_name : String
  last_name : String
  email : String
  phone : String
  preferred_contact : Option String := none
  start_date : String
  end_date : String
  delivery_location : Option String := none
  occasion : Option String := none
  driver_age_confirmed : Option Bool := none
  license_upload_url : Option String := none
  insurance_upload_url : Option String := none
  selfie_upload_url : Option String := none
  drive_mode : Option String := none
  addons : Option (List String) := none
  notes : Option String := none
  status : Option String := none
deriving Repr, DecidableEq

/-- The `Literal` enum checks pydantic performs on a raw Booking submission
(defaults already substituted for omitted fields). -/
def rawBookingValid (r : RawBooking) : Bool :=
  ["whatsapp", "phone", "email"].contains (r.preferred_contact.getD "whatsapp") &&
  r.occasion.all (fun o => ["nightlife", "wedding", "corporate", "weekend", "other"].contains o) &&
  r.drive_mode.all (fun d => ["self-drive", "chauffeur"].contains d) &&
  ["new", "reviewing", "approved", "declined", "canceled"].contains (r.status.getD "new")

/-- Pydantic validation of a Booking body: enum membership is checked and
schema defaults are substituted for omitted fields (`preferred_contact` ↦
`"whatsapp"`, `driver_age_confirmed` ↦ `false`, `addons` ↦ `[]`,
`status` ↦ `"new"`). -/
def parse_booking (r : RawBooking) : Option Booking :=
  if rawBookingValid r then
    some
      { vehicle_id := r.vehicle_id
        first_name := r.first_name
        last_name := r.last_name
        email := r.email
        phone := r.phone
        preferred_contact := r.preferred_contact.getD "whatsapp"
        start_date := r.start_date
        end_date := r.end_date
        delivery_location := r.delivery_location
        occasion := r.occasion
        driver_age_confirmed := r.driver_age_confirmed.getD false
        license_upload_url := r.license_upload_url
        insurance_upload_url := r.insurance_upload_url
        selfie_upload_url := r.selfie_upload_url
        drive_mode := r.drive_mode
        addons := r.addons.getD []
        notes := r.notes
        status := r.status.getD "new" }
  else none

/-- `POST /api/bookings` (`submit_booking` in `main.py`): rejects with a
400 when `drive_mode == "self-drive"` and `driver_age_confirmed` is false
(leaving the store untouched), otherwise inserts the validated booking
as-is and answers `{ok: true, id}`. -/
def submit_booking (c : Coll Booking) (booking : Booking) :
    Coll Booking × Except HErr (Bool × String) :=
  if booking.drive_mode = some "self-drive" && !booking.driver_age_confirmed then
    (c, .error ⟨400, "Driver age must be confirmed for self-drive"⟩)
  else
    let r := create_document c booking
    (r.1, .ok (true, r.2))

/-- A JSON-like value, for the free-form Lead payload. -/
inductive Value where
  | null
  | str (s : String)
  | list (xs : List Value)
  | obj (fields : List (String × Value))
deriving Repr

/-- `main.QuotePayload`: the nested free-form quote payload of a lead
request. -/
structure QuotePayload where
  vehicle_slug : Option String := none
  vehicle_id : Option String := none
  drive_mode : Option String := none
  start_date : Option String := none
  end_date : Option String := none
  delivery_location : Option String := none
  occasion : Option String := none
  addons : Option (List String) := none
  utm : Option (List (String × Value)) := none
deriving Repr

/-- `main.QuoteRequest`: contact fields plus the nested quote payload. -/
structure QuoteRequest where
  first_name : String
  last_name : String
  email : String
  phone : String
  preferred_contact : String := "whatsapp"
  payload : QuotePayload
deriving Repr

/-- `schemas.Lead`. -/
structure Lead where
  source : String := "web"
  form_type : String := "quote"
  payload : List (String × Value) := []
  status : String := "new"
deriving Repr

/-- An optional string dumped into a JSON value (`None` ↦ `null`). -/
def optStr : Option String → Value
  | none => .null
  | some s => .str s

/-- `lead.payload.model_dump()`: every `QuotePayload` field under its name,
absent fields as `null`. -/
def quotePayloadDump (p : QuotePayload) : List (String × Value) :=
  [("vehicle_slug", optStr p.vehicle_slug),
   ("vehicle_id", optStr p.vehicle_id),
   ("drive_mode", optStr p.drive_mode),
   ("start_date", optStr p.start_date),
   ("end_date", optStr p.end_date),
   ("delivery_location", optStr p.delivery_location),
   ("occasion", optStr p.occasion),
   ("addons", match p.addons with
              | none => .null
              | some xs => .list (xs.map .str)),
   ("utm", match p.utm with
           | none => .null
           | some kvs => .obj kvs)]

/-- The `contact` sub-mapping `create_lead` merges into the payload. -/
def contactOf (lead : QuoteRequest) : Value :=
  .obj [("first_name", .str lead.first_name),
        ("last_name", .str lead.last_name),
        ("email", .str lead.email),
        ("phone", .str lead.phone),
        ("preferred_contact", .str lead.preferred_contact)]

/-- `POST /api/lead` (`create_lead` in `main.py`): wraps the request in a
`Lead` with `source="web"`, `form_type="quote"` and a payload made of the
dumped quote payload merged with the contact sub-mapping and the server-side
UTC timestamp `now` (`datetime.utcnow().isoformat()`), inserts it, and
answers `{ok: true, id}`. -/
def create_lead (c : Coll Lead) (lead : QuoteRequest) (now : String) :
    Coll Lead × (Bool × String) :=
  let data : Lead :=
    { source := "web"
      form_type := "quote"
      payload := quotePayloadDump lead.payload ++
        [("contact", contactOf lead), ("received_at", .str now)]
      status := "new" }
  let r := create_document c data
  (r.1, (true, r.2))

/-- `POST /api/upload` (`upload_file` in `main.py`): the filename defaults
to `"upload.bin"` when the uploaded file carries a falsy one; the bytes are
written to `/tmp/<filename>` and the answer is the synthesized URL
`https://files.local/<filename>`.  The result is the written file
(path, bytes) paired with the returned URL. -/
def upload_file (filename : Option String) (contents : List UInt8) :
    (String × List UInt8) × String :=
  let name := pyOr filename "upload.bin"
  (("/tmp/" ++ name, contents), "https://files.local/" ++ name)

/-- The state the diagnostics endpoint can observe the store handle in:
the handle itself raises on access (caught by the outer `except`), the
handle is `None`, or the handle is present and `list_collection_names()`
either returns names or raises (caught by the inner `except`). -/
inductive DbState where
  | raising (e : String)
  | notInit
  | conn (listResult : Except String (List String))
deriving Repr

/-- The JSON body `GET /test` answers with. -/
structure TestResp where
  backend : String
  database : String
  database_url : Option String
  database_name : Option String
  connection_status : String
  collections : List String
deriving Repr, DecidableEq

/-- `GET /test` (`test_database` in `main.py`): a total function of the
store state and the environment — every store failure is degraded into the
`database` string of a 200 response (errors truncated to 80 characters,
collection names truncated to 10). -/
def test_database (db : DbState) (url name : Option String) : TestResp :=
  match db with
  | .raising e =>
      { backend := "✅ Running"
        database := "❌ Error: " ++ truncate80 e
        database_url := none
        database_name := none
        connection_status := "Not Connected"
        collections := [] }
  | .notInit =>
      { backend := "✅ Running"
        database := "⚠️ Available but not initialized"
        database_url := none
        database_name := none
        connection_status := "Not Connected"
        collections := [] }
  | .conn r =>
      let u := some (if pyTruthy url then "✅ Set" else "❌ Not Set")
      let n := some (pyOr name "❌ Not Set")
      match r with
      | .ok cols =>
          { backend := "✅ Running"
            database := "✅ Connected & Working"
            database_url := u
            database_name := n
            connection_status := "Connected"
            collections := cols.take 10 }
      | .error e =>
          { backend := "✅ Running"
            database := "⚠️ Connected but Error: " ++ truncate80 e
            database_url := u
            database_name := n
            connection_status := "Not Connected"
            collections := [] }

/-- A raw Vehicle payload before validation: same shape as `Vehicle`, but
none of the `Field` range constraints or `Literal` memberships are known to
hold yet. -/
structure RawVehicle where
  slug : String
  year : Int
  make : String
  model : String
  trim : Option String := none
  type : String
  drive_mode : String := "both"
  price_per_day : Rat
  price_per_week : Option Rat := none
  mileage_limit_per_day : Int
  overage_fee_per_mile : Rat
  security_deposit : Int
  transmission : Option String := none
  drivetrain : Option String := none
  seats : Option Int := none
  color : Option String := none
  horsepower : Option Int := none
  torque : Option Int := none
  zero_to_60 : Option Rat := none
  features : List String := []
  images : List String := []
  video_url : Option String := none
  tags : List String := []
  available : Bool := true
  availability_notes : Option String := none
deriving Repr, DecidableEq

/-- The `Field` range constraints and `Literal` memberships pydantic checks
on a raw Vehicle payload (`schemas.Vehicle`). -/
def rawVehicleValid (r : RawVehicle) : Bool :=
  decide (1900 ≤ r.year) && decide (r.year ≤ 2100) &&
  ["supercar", "suv", "luxury", "sedan", "convertible"].contains r.type &&
  ["self-drive", "chauffeur", "both"].contains r.drive_mode &&
  decide (0 ≤ r.price_per_day) &&
  r.price_per_week.all (fun x => decide (0 ≤ x)) &&
  decide (0 ≤ r.mileage_limit_per_day) &&
  decide (0 ≤ r.overage_fee_per_mile) &&
  decide (0 ≤ r.security_deposit) && decide (r.security_deposit ≤ 10000) &&
  r.seats.all (fun x => decide (1 ≤ x) && decide (x ≤ 9)) &&
  r.horsepower.all (fun x => decide (0 ≤ x)) &&
  r.torque.all (fun x => decide (0 ≤ x)) &&
  r.zero_to_60.all (fun x => decide (0 ≤ x))

/-- Pydantic validation of a Vehicle payload: a record is produced exactly
when every declared constraint holds, and its fields are the raw fields
unchanged. -/
def validateVehicle (r : RawVehicle) : Option Vehicle :=
  if rawVehicleValid r then
    some
      { slug := r.slug
        year := r.year
        make := r.make
        model := r.model
        trim := r.trim
        type := r.type
        drive_mode := r.drive_mode
        price_per_day := r.price_per_day
        price_per_week := r.price_per_week
        mileage_limit_per_day := r.mileage_limit_per_day
        overage_fee_per_mile := r.overage_fee_per_mile
        security_deposit := r.security_deposit
        transmission := r.transmission
        drivetrain := r.drivetrain
        seats := r.seats
        color := r.color
        horsepower := r.horsepower
        torque := r.torque
        zero_to_60 := r.zero_to_60
        features := r.features
        images := r.images
        video_url := r.video_url
        tags := r.tags
        available := r.available
        availability_notes := r.availability_notes }
  else none

/-- Writing a list of vehicles to an (initially empty) store, one
`create_document` insert per record. -/
def seedVehicles (vs : List Vehicle) : Coll Vehicle :=
  vs.foldl (fun c v => (create_document c v).1) ⟨[], 0⟩

/-- A sample raw Vehicle payload, used in concrete instantiations. -/
def rawFerrari : RawVehicle :=
  { slug := "ferrari-488-2020"
    year := 2020
    make := "Ferrari"
    model := "488"
    type := "supercar"
    price_per_day := 1500
    mileage_limit_per_day := 100
    overage_fee_per_mile := 5
    security_deposit := 5000 }

/-- The validated Vehicle record of `rawFerrari`. -/
def vFerrari : Vehicle :=
  { slug := "ferrari-488-2020"
    year := 2020
    make := "Ferrari"
    model := "488"
    type := "supercar"
    price_per_day := 1500
    mileage_limit_per_day := 100
    overage_fee_per_mile := 5
    security_deposit := 5000 }

/-- A vehicle sharing `vDupB`'s slug. -/
def vDupA : Vehicle := { vFerrari with slug := "dup" }

/-- A second vehicle with slug "dup" but a different make. -/
def vDupB : Vehicle := { vFerrari with slug := "dup", make := "Lamborghini" }

/-- A sample raw Booking submission that omits every optional field. -/
def rawBookingSample : RawBooking :=
  { vehicle_id := "veh1"
    first_name := "Ada"
    last_name := "Lovelace"
    email := "ada@example.com"
    phone := "555"
    start_date := "2025-01-01"
    end_date := "2025-01-02" }

/-- The validated Booking of `rawBookingSample` (all defaults applied). -/
def bookingSample : Booking :=
  { vehicle_id := "veh1"
    first_name := "Ada"
    last_name := "Lovelace"
    email := "ada@example.com"
    phone := "555"
    start_date := "2025-01-01"
    end_date := "2025-01-02" }

/-- A sample lead request. -/
def quoteReqSample : QuoteRequest :=
  { first_name := "A"
    last_name := "B"
    email := "a@b.com"
    phone := "123"
    payload := { vehicle_slug := some "x" } }

/-- The Lead record `create_lead` builds from `quoteReqSample` at server
time "t". -/
def leadStoredSample : Lead :=
  { payload := quotePayloadDump quoteReqSample.payload ++
      [("contact", contactOf quoteReqSample), ("received_at", .str "t")] }

/-! ## Helper lemmas -/

lemma pyTruthy_iff (o : Option String) :
    pyTruthy o = true ↔ ∃ s, o = some s ∧ s ≠ "" := by
  cases o <;> simp [pyTruthy]

lemma stringifyId_eq {α : Type} (p : String × α) : stringifyId p = p := by
  unfold stringifyId pyStr
  split <;> rfl

lemma map_stringifyId {α : Type} (l : List (String × α)) :
    l.map stringifyId = l := by
  induction l with
  | nil => rfl
  | cons x xs ih => simp [stringifyId_eq, ih]

lemma anchorCore (m : String) :
    (("^" ++ m ++ "$").data.drop 1).dropLast = m.data := by
  obtain ⟨l⟩ := m
  show ((('^' :: l) ++ ['$']).drop 1).dropLast = l
  simp

lemma genId_length (n : Nat) : (genId n).length = n + 1 := by
  show (List.replicate (n + 1) 'i').length = n + 1
  simp

lemma genId_ne_empty (n : Nat) : genId n ≠ "" := by
  intro h
  have h' := congrArg String.length h
  rw [genId_length, show ("" : String).length = 0 from rfl] at h'
  exact Nat.succ_ne_zero n h'

/-! ## Claim theorems -/

/-- C1: a validated Booking with `drive_mode = "self-drive"` and
`driver_age_confirmed = false` is rejected with a 400 BadRequest and the
store is left unchanged; every other validated Booking is inserted as
supplied, and the stored record's `status` is the default `"new"` whenever
the caller omitted it. -/
theorem submit_booking_spec (c : Coll Booking) (raw : RawBooking) (b : Booking)
    (hb : parse_booking raw = some b) :
    (b.drive_mode = some "self-drive" ∧ b.driver_age_confirmed = false →
      submit_booking c b =
        (c, .error ⟨400, "Driver age must be confirmed for self-drive"⟩)) ∧
    (¬(b.drive_mode = some "self-drive" ∧ b.driver_age_confirmed = false) →
      submit_booking c b =
        (⟨c.docs ++ [(genId c.nextId, b)], c.nextId + 1⟩,
          .ok (true, genId c.nextId)) ∧
      (raw.status = none → b.status = "new")) := by
  have hs : b.status = raw.status.getD "new" := by
    unfold parse_booking at hb
    split at hb
    · cases hb
      rfl
    · cases hb
  constructor
  · rintro ⟨h1, h2⟩
    simp [submit_booking, h1, h2]
  · intro hn
    have hc : (decide (b.drive_mode = some "self-drive") && !b.driver_age_confirmed) = false := by
      by_cases h1 : b.drive_mode = some "self-drive"
      · by_cases h2 : b.driver_age_confirmed
        · simp [h1, h2]
        · exact absurd ⟨h1, by simp [h2]⟩ hn
      · simp [h1]
    refine ⟨?_, fun hnone => by simp [hs, hnone]⟩
    simp [submit_booking, hc, create_document]

/-- C1 witness: a concrete non-self-drive submission is inserted with the
default status. -/
theorem submit_booking_spec_witness :
    submit_booking ⟨[], 0⟩ bookingSample =
      (⟨[(genId 0, bookingSample)], 1⟩, .ok (true, genId 0)) ∧
    bookingSample.status = "new" := by
  have h := (submit_booking_spec ⟨[], 0⟩ rawBookingSample bookingSample (by decide)).2
    (by decide)
  exact ⟨h.1, h.2 rfl⟩

/-- C3: `get_vehicle` answers the 404 error exactly when the limit-1
exact-slug query returns no document, and otherwise answers the first
result (with its identifier stringified). -/
theorem get_vehicle_spec (c : Coll Vehicle) (slug : String) :
    (get_vehicle c slug = .error ⟨404, "Vehicle not found"⟩ ↔
      get_documents c (vehicleMatches [("slug", Cond.eqStr slug)]) (some 1) = []) ∧
    (∀ x xs,
      get_documents c (vehicleMatches [("slug", Cond.eqStr slug)]) (some 1) = x :: xs →
      get_vehicle c slug = .ok (stringifyId x)) := by
  constructor
  · cases h : get_documents c (vehicleMatches [("slug", Cond.eqStr slug)]) (some 1) <;>
      simp [get_vehicle, h]
  · intro x xs h
    simp [get_vehicle, h]

/-- C3 witness: the empty store yields the 404, and a seeded store yields
its record. -/
theorem get_vehicle_spec_witness :
    get_vehicle ⟨[], 0⟩ "missing" = .error ⟨404, "Vehicle not found"⟩ ∧
    get_vehicle (seedVehicles [vFerrari]) "ferrari-488-2020" =
      .ok (genId 0, vFerrari) := by
  constructor
  · exact (get_vehicle_spec ⟨[], 0⟩ "missing").1.mpr rfl
  · have h := (get_vehicle_spec (seedVehicles [vFerrari]) "ferrari-488-2020").2
      (genId 0, vFerrari) [] (by decide)
    rw [stringifyId_eq] at h
    exact h

/-- C6: for every observable store state the diagnostics endpoint produces
a response (it is a total function, never an exception): at most 10
collection names are reported, and a store error is degraded into the
`database` string with the error text truncated to at most 80
characters. -/
theorem test_database_spec (db : DbState) (url name : Option String) :
    (test_database db url name).collections.length ≤ 10 ∧
    (∀ e, db = .conn (.error e) →
      (test_database db url name).database =
        "⚠️ Connected but Error: " ++ truncate80 e ∧
      (truncate80 e).length ≤ 80) ∧
    (∀ e, db = .raising e →
      (test_database db url name).database = "❌ Error: " ++ truncate80 e ∧
      (truncate80 e).length ≤ 80) := by
  have htr : ∀ e : String, (truncate80 e).length ≤ 80 := fun e =>
    List.length_take_le 80 e.data
  refine ⟨?_, ?_, ?_⟩
  · cases db with
    | raising e => simp [test_database]
    | notInit => simp [test_database]
    | conn r =>
      cases r with
      | ok cols => simp [test_database]
      | error e => simp [test_database]
  · rintro e rfl
    exact ⟨rfl, htr e⟩
  · rintro e rfl
    exact ⟨rfl, htr e⟩

/-- C6 witness: a store whose collection listing raises is degraded into
the response body. -/
theorem test_database_spec_witness :
    (test_database (.conn (.error "boom")) none none).database =
      "⚠️ Connected but Error: boom" ∧
    (test_database (.conn (.error "boom")) none none).collections.length ≤ 10 := by
  have h := test_database_spec (.conn (.error "boom")) none none
  refine ⟨?_, h.1⟩
  rw [(h.2.1 "boom" rfl).1]
  decide

/-- C9: an upload without a filename is written to `/tmp/upload.bin` and
answered with `https://files.local/upload.bin`; in general the answered URL
is `https://files.local/` followed by the filename used for the write. -/
theorem upload_file_spec (filename : Option String) (contents : List UInt8) :
    (filename = none →
      upload_file filename contents =
        (("/tmp/upload.bin", contents), "https://files.local/upload.bin")) ∧
    upload_file filename contents =
      (("/tmp/" ++ pyOr filename "upload.bin", contents),
        "https://files.local/" ++ pyOr filename "upload.bin") := by
  refine ⟨fun h => ?_, rfl⟩
  subst h
  rfl

/-- C9 witness: the default name at a concrete input. -/
theorem upload_file_spec_witness :
    upload_file none [] =
      (("/tmp/upload.bin", []), "https://files.local/upload.bin") :=
  (upload_file_spec none []).1 rfl

/-- C10: every record `create_lead` adds to the store has status `"new"`
(the request model exposes no status field). -/
theorem create_lead_status (c : Coll Lead) (lead : QuoteRequest) (now : String)
    (p : String × Lead) (hp : p ∈ (create_lead c lead now).1.docs) :
    p ∈ c.docs ∨ p.2.status = "new" := by
  simp only [create_lead, create_document, List.mem_append, List.mem_singleton] at hp
  rcases hp with h | rfl
  · exact Or.inl h
  · exact Or.inr rfl

/-- C10 witness: the concrete stored lead has status `"new"`. -/
theorem create_lead_status_witness : leadStoredSample.status = "new" := by
  have h := create_lead_status ⟨[], 0⟩ quoteReqSample "t" (genId 0, leadStoredSample)
    (List.mem_singleton.mpr rfl)
  exact h.resolve_left (by simp)

lemma vehicleMatches_make (m : String) (v : Vehicle) :
    vehicleMatches [("make", Cond.regexCI ("^" ++ m ++ "$"))] v = true ↔
      lowerData v.make = lowerData m := by
  simp [vehicleMatches, vehicleField, condMatch, anchorCore, lowerData]

/-- C2: under a non-empty `make` filter, a stored vehicle is returned
exactly when its `make` equals the parameter up to ASCII case — a full
string comparison, never a substring match. -/
theorem list_vehicles_make_filter (c : Coll Vehicle) (m : String) (hm : m ≠ "")
    (idv : String × Vehicle) :
    idv ∈ list_vehicles c (some m) none none ↔
      idv ∈ c.docs ∧ lowerData idv.2.make = lowerData m := by
  have hb : buildVehicleFilters (some m) none none =
      [("make", Cond.regexCI ("^" ++ m ++ "$"))] := by
    simp [buildVehicleFilters, pyTruthy, hm]
  rw [list_vehicles, map_stringifyId, hb]
  show idv ∈ (c.docs.filter fun p =>
    vehicleMatches [("make", Cond.regexCI ("^" ++ m ++ "$"))] p.2) ↔ _
  rw [List.mem_filter, vehicleMatches_make]

/-- C2 witness: a vehicle stored with make "Ferrari" is returned under the
filter make="ferrari". -/
theorem list_vehicles_make_filter_witness :
    (genId 0, vFerrari) ∈
      list_vehicles (seedVehicles [vFerrari]) (some "ferrari") none none :=
  (list_vehicles_make_filter (seedVehicles [vFerrari]) "ferrari" (by decide)
    (genId 0, vFerrari)).mpr ⟨by decide, by decide⟩

/-- C4: `create_lead` inserts exactly one Lead with source "web" and
form_type "quote", whose payload is the dumped quote payload merged with
the contact sub-mapping and the server-side timestamp, and answers
`{ok: true, id}` with the generated identifier. -/
theorem create_lead_spec (c : Coll Lead) (lead : QuoteRequest) (now : String) :
    ∃ id data,
      create_lead c lead now = (⟨c.docs ++ [(id, data)], c.nextId + 1⟩, (true, id)) ∧
      data.source = "web" ∧ data.form_type = "quote" ∧
      data.payload = quotePayloadDump lead.payload ++
        [("contact", contactOf lead), ("received_at", Value.str now)] ∧
      data.payload.lookup "contact" = some (contactOf lead) ∧
      data.payload.lookup "received_at" = some (Value.str now) :=
  ⟨genId c.nextId,
   { source := "web"
     form_type := "quote"
     payload := quotePayloadDump lead.payload ++
       [("contact", contactOf lead), ("received_at", .str now)]
     status := "new" },
   rfl, rfl, rfl, rfl, rfl, rfl⟩

lemma rawVehicleValid_ranges (r : RawVehicle) (h : rawVehicleValid r = true) :
    (1900 ≤ r.year ∧ r.year ≤ 2100) ∧
    (∀ s, r.seats = some s → 1 ≤ s ∧ s ≤ 9) ∧
    0 ≤ r.price_per_day ∧ 0 ≤ r.mileage_limit_per_day ∧
    0 ≤ r.security_deposit ∧ r.security_deposit ≤ 10000 := by
  unfold rawVehicleValid at h
  repeat rw [Bool.and_eq_true] at h
  obtain ⟨h, _⟩ := h
  obtain ⟨h, _⟩ := h
  obtain ⟨h, _⟩ := h
  obtain ⟨h, hseats⟩ := h
  obtain ⟨h, h10⟩ := h
  obtain ⟨h, h9⟩ := h
  obtain ⟨h, _⟩ := h
  obtain ⟨h, h7⟩ := h
  obtain ⟨h, _⟩ := h
  obtain ⟨h, h5⟩ := h
  obtain ⟨h, _⟩ := h
  obtain ⟨h, _⟩ := h
  obtain ⟨h1, h2⟩ := h
  refine ⟨⟨of_decide_eq_true h1, of_decide_eq_true h2⟩, ?_,
    of_decide_eq_true h5, of_decide_eq_true h7,
    of_decide_eq_true h9, of_decide_eq_true h10⟩
  intro s hs
  rw [hs] at hseats
  simpa [Option.all] using hseats

/-- C7: an accepted Vehicle satisfies the declared numeric ranges, and any
raw payload violating one of them is rejected. -/
theorem validateVehicle_spec (r : RawVehicle) :
    (∀ v, validateVehicle r = some v →
      (1900 ≤ v.year ∧ v.year ≤ 2100) ∧
      (∀ s, v.seats = some s → 1 ≤ s ∧ s ≤ 9) ∧
      0 ≤ v.price_per_day ∧ 0 ≤ v.mileage_limit_per_day ∧
      0 ≤ v.security_deposit ∧ v.security_deposit ≤ 10000) ∧
    (¬((1900 ≤ r.year ∧ r.year ≤ 2100) ∧
       (∀ s, r.seats = some s → 1 ≤ s ∧ s ≤ 9) ∧
       0 ≤ r.price_per_day ∧ 0 ≤ r.mileage_limit_per_day ∧
       0 ≤ r.security_deposit ∧ r.security_deposit ≤ 10000) →
      validateVehicle r = none) := by
  constructor
  · intro v hv
    have hval : rawVehicleValid r = true := by
      by_contra hc
      rw [validateVehicle, if_neg hc] at hv
      cases hv
    rw [validateVehicle, if_pos hval] at hv
    cases hv
    exact rawVehicleValid_ranges r hval
  · intro hn
    cases hvv : validateVehicle r with
    | none => rfl
    | some v =>
      have hval : rawVehicleValid r = true := by
        by_contra hc
        rw [validateVehicle, if_neg hc] at hvv
        cases hvv
      exact absurd (rawVehicleValid_ranges r hval) hn

/-- C7 witness: the concrete accepted Vehicle satisfies the ranges. -/
theorem validateVehicle_spec_witness :
    (1900 ≤ vFerrari.year ∧ vFerrari.year ≤ 2100) ∧
    (∀ s, vFerrari.seats = some s → 1 ≤ s ∧ s ≤ 9) ∧
    0 ≤ vFerrari.price_per_day ∧ 0 ≤ vFerrari.mileage_limit_per_day ∧
    0 ≤ vFerrari.security_deposit ∧ vFerrari.security_deposit ≤ 10000 :=
  (validateVehicle_spec rawFerrari).1 vFerrari (by decide)

/-- C8: an empty-string query parameter contributes no filter entry — a
field key appears in the filter mapping exactly when the matching parameter
is supplied non-empty — so `make=""` returns every stored vehicle. -/
theorem list_vehicles_empty_param (make type_ dm : Option String)
    (c : Coll Vehicle) :
    ("make" ∈ (buildVehicleFilters make type_ dm).map Prod.fst ↔
      ∃ s, make = some s ∧ s ≠ "") ∧
    ("type" ∈ (buildVehicleFilters make type_ dm).map Prod.fst ↔
      ∃ s, type_ = some s ∧ s ≠ "") ∧
    ("drive_mode" ∈ (buildVehicleFilters make type_ dm).map Prod.fst ↔
      ∃ s, dm = some s ∧ s ≠ "") ∧
    list_vehicles c (some "") none none = c.docs := by
  refine ⟨?_, ?_, ?_, ?_⟩
  · rw [← pyTruthy_iff]
    cases hm : pyTruthy make <;> cases ht : pyTruthy type_ <;>
      cases hd : pyTruthy dm <;> simp [buildVehicleFilters, hm, ht, hd]
  · rw [← pyTruthy_iff]
    cases hm : pyTruthy make <;> cases ht : pyTruthy type_ <;>
      cases hd : pyTruthy dm <;> simp [buildVehicleFilters, hm, ht, hd]
  · rw [← pyTruthy_iff]
    cases hm : pyTruthy make <;> cases ht : pyTruthy type_ <;>
      cases hd : pyTruthy dm <;> simp [buildVehicleFilters, hm, ht, hd]
  · rw [list_vehicles, map_stringifyId]
    show (c.docs.filter fun p =>
      vehicleMatches (buildVehicleFilters (some "") none none) p.2) = c.docs
    simp [buildVehicleFilters, pyTruthy, vehicleMatches]

lemma seed_map_snd (vs : List Vehicle) : ∀ c : Coll Vehicle,
    ((vs.foldl (fun c v => (create_document c v).1) c).docs).map Prod.snd =
      c.docs.map Prod.snd ++ vs := by
  induction vs with
  | nil => intro c; simp
  | cons v tl ih =>
    intro c
    rw [List.foldl_cons, ih]
    simp [create_document]

lemma seed_ids_ok (vs : List Vehicle) : ∀ c : Coll Vehicle,
    (c.docs.map Prod.fst).Nodup →
    (∀ s ∈ c.docs.map Prod.fst, 1 ≤ s.length ∧ s.length ≤ c.nextId) →
    ((vs.foldl (fun c v => (create_document c v).1) c).docs.map Prod.fst).Nodup ∧
    ∀ s ∈ (vs.foldl (fun c v => (create_document c v).1) c).docs.map Prod.fst,
      1 ≤ s.length ∧
      s.length ≤ (vs.foldl (fun c v => (create_document c v).1) c).nextId := by
  induction vs with
  | nil => exact fun c h1 h2 => ⟨h1, h2⟩
  | cons v tl ih =>
    intro c h1 h2
    apply ih
    · simp only [create_document, List.map_append, List.map_cons, List.map_nil]
      rw [List.nodup_append]
      refine ⟨h1, List.nodup_singleton _, ?_⟩
      intro s hs hs'
      rw [List.mem_singleton] at hs'
      subst hs'
      have hl := (h2 _ hs).2
      rw [genId_length] at hl
      omega
    · intro s hs
      simp only [create_document, List.map_append, List.map_cons, List.map_nil,
        List.mem_append, List.mem_singleton] at hs
      rcases hs with hs | rfl
      · have := h2 s hs
        exact ⟨this.1, Nat.le_succ_of_le this.2⟩
      · rw [genId_length]
        exact ⟨Nat.succ_le_succ (Nat.zero_le _), Nat.le_refl _⟩

/-- C5 (amended): when no other written vehicle shares its slug, a written
Vehicle queried back by its exact slug is returned with all field values
equal to those written and a non-empty identifier, and generated
identifiers are distinct across the inserted records. -/
theorem get_vehicle_roundtrip (vs : List Vehicle) (v : Vehicle)
    (hv : v ∈ vs) (huniq : ∀ w ∈ vs, w.slug = v.slug → w = v) :
    (∃ id, get_vehicle (seedVehicles vs) v.slug = .ok (id, v) ∧ id ≠ "") ∧
    ((seedVehicles vs).docs.map Prod.fst).Nodup := by
  have hids := seed_ids_ok vs ⟨[], 0⟩ (by simp) (by simp)
  have hS : seedVehicles vs = vs.foldl (fun c v => (create_document c v).1) ⟨[], 0⟩ := rfl
  rw [hS]
  refine ⟨?_, hids.1⟩
  have hsnd := seed_map_snd vs ⟨[], 0⟩
  have hpred : ∀ w : Vehicle,
      vehicleMatches [("slug", Cond.eqStr v.slug)] w = true ↔ w.slug = v.slug := by
    intro w
    simp [vehicleMatches, vehicleField, condMatch]
  set S := vs.foldl (fun c v => (create_document c v).1) ⟨[], 0⟩ with hSdef
  have hvS : v ∈ S.docs.map Prod.snd := by
    rw [hsnd]
    simpa using hv
  obtain ⟨p, hpdocs, hp2⟩ := List.mem_map.mp hvS
  have hpmem : p ∈ S.docs.filter
      (fun q => vehicleMatches [("slug", Cond.eqStr v.slug)] q.2) := by
    refine List.mem_filter.mpr ⟨hpdocs, ?_⟩
    rw [hpred, hp2]
  cases hfq : S.docs.filter
      (fun q => vehicleMatches [("slug", Cond.eqStr v.slug)] q.2) with
  | nil => exact absurd (hfq ▸ hpmem) (List.not_mem_nil p)
  | cons x xs =>
    have hx := List.mem_filter.mp (hfq ▸ List.mem_cons_self x xs)
    have hx2 : x.2 ∈ vs := by
      have : x.2 ∈ S.docs.map Prod.snd := List.mem_map_of_mem Prod.snd hx.1
      rw [hsnd] at this
      simpa using this
    have hxv : x.2 = v := huniq x.2 hx2 ((hpred x.2).mp hx.2)
    have hid : 1 ≤ x.1.length :=
      (hids.2 x.1 (List.mem_map_of_mem Prod.fst hx.1)).1
    refine ⟨x.1, ?_, ?_⟩
    · have hgd : get_documents S
          (vehicleMatches [("slug", Cond.eqStr v.slug)]) (some 1) = [x] := by
        simp [get_documents, hfq]
      rw [get_vehicle, hgd]
      show Except.ok (stringifyId x) = Except.ok (x.1, v)
      rw [stringifyId_eq, ← hxv]
    · intro h0
      rw [h0, show ("" : String).length = 0 from rfl] at hid
      exact absurd hid (by omega)

/-- C5 witness: a concrete written vehicle is returned intact with a
non-empty identifier. -/
theorem get_vehicle_roundtrip_witness :
    ∃ id, get_vehicle (seedVehicles [vFerrari]) vFerrari.slug =
      .ok (id, vFerrari) ∧ id ≠ "" :=
  (get_vehicle_roundtrip [vFerrari] vFerrari (by simp)
    (fun w hw _ => by simpa using hw)).1

/-- C5 counterexample: the claim fails as universally stated — two vehicles
written with the same slug "dup"; the second one queried back by its exact
slug returns the first record, whose field values differ from those
written. -/
theorem get_vehicle_roundtrip_cex :
    vDupB ∈ [vDupA, vDupB] ∧
    get_vehicle (seedVehicles [vDupA, vDupB]) vDupB.slug = .ok (genId 0, vDupA) ∧
    vDupA ≠ vDupB := ⟨by decide, by rfl, by decide⟩

end BlackLabel
